import Mathlib

/-
Verification of the metrics-exporter collector loop
(nsw-strata-automation/monitoring/metrics-exporter/exporter.py).

The exporter repeatedly runs a fixed sequence of collection steps.  Each step
opens a database connection (query_db / get_db_connection, exporter.py lines
163-190), fetches rows, and maps each row to a Gauge update through the
pattern

    label  = row.get(field, fallback)          -- psycopg2 RealDictCursor rows
    value  = float(row.get(value_field, 0))    -- may raise on None
    gauge.labels(...).set(value)

The embedding below models the registry (gauges, counters, histogram
observation counts) as explicit state, database rows as association lists of
SQL values, and each step as a total state transformer in which every Python
exception path is an explicit branch.
-/

namespace Exporter

/-- A value stored in a result-row column: SQL NULL, a text value, or a
numeric value.  psycopg2 delivers NULL as Python None with the column key
still present in the row dictionary. -/
inductive DBVal where
  | vnull
  | vstr (s : String)
  | vnum (q : Rat)

/-- A result row from RealDictCursor: an association list from column name to
value (exporter.py line 182). -/
abbrev Row := List (String × DBVal)

/-- Python dict.get with a default: the default is used only when the KEY is
absent; a key present with value None returns None. -/
def pyGet : Row → String → DBVal → DBVal
  | [], _, d => d
  | (k2, v) :: rest, k, d => if k2 = k then v else pyGet rest k d

/-- Digits of a nonempty all-digit character list as a natural number. -/
def parseDigits (cs : List Char) : Option Nat :=
  if cs ≠ [] ∧ cs.all Char.isDigit then
    some (cs.foldl (fun n c => 10 * n + (c.toNat - 48)) 0)
  else none

/-- Python int(str): optional sign followed by digits; anything else raises
ValueError (modelled as none).  Decimal points are not accepted by int(). -/
def parseIntStr (s : String) : Option Int :=
  match s.trim.toList with
  | '-' :: cs => (parseDigits cs).map (fun n => -(n : Int))
  | '+' :: cs => (parseDigits cs).map (fun n => (n : Int))
  | cs => (parseDigits cs).map (fun n => (n : Int))

/-- Unsigned decimal literal: digits, optionally with a fractional part.
Scientific notation and inf/nan, which no numeric database column produces
here, are not modelled. -/
def parseFracCore (cs : List Char) : Option Rat :=
  let ip := cs.takeWhile (fun c => c ≠ '.')
  let rest := cs.dropWhile (fun c => c ≠ '.')
  match rest with
  | [] => (parseDigits ip).map (fun n => (n : Rat))
  | '.' :: fp =>
    if ip.all Char.isDigit ∧ fp.all Char.isDigit ∧ (ip ≠ [] ∨ fp ≠ []) then
      some ((ip.foldl (fun n c => 10 * n + (c.toNat - 48)) 0 : Nat) +
            ((fp.foldl (fun n c => 10 * n + (c.toNat - 48)) 0 : Nat) : Rat) /
              ((10 : Rat) ^ fp.length))
    else none
  | _ => none

/-- Python float(str): optional sign and a decimal literal. -/
def parseFloatStr (s : String) : Option Rat :=
  match s.trim.toList with
  | '-' :: cs => (parseFracCore cs).map (fun q => -q)
  | '+' :: cs => parseFracCore cs
  | cs => parseFracCore cs

/-- Python float(x) on a row value: None raises TypeError (none); numbers
convert; strings parse as decimal literals or raise ValueError (none). -/
def pyFloat : DBVal → Option Rat
  | DBVal.vnull => none
  | DBVal.vnum q => some q
  | DBVal.vstr s => parseFloatStr s

/-- Truncation toward zero, as Python int() applied to a number. -/
def pyTruncRat (q : Rat) : Int := q.num.tdiv (q.den : Int)

/-- Python int(x) on a row value: None raises TypeError (none); numbers
truncate toward zero; strings must be integer literals. -/
def pyInt : DBVal → Option Int
  | DBVal.vnull => none
  | DBVal.vnum q => some (pyTruncRat q)
  | DBVal.vstr s => parseIntStr s

/-- The label string prometheus_client stores for a value passed to
.labels(...): label values go through str(), so Python None becomes the
string None. -/
def labelOf : DBVal → String
  | DBVal.vnull => "None"
  | DBVal.vstr s => s
  | DBVal.vnum q => toString q

/-- A Gauge time series is identified by metric name and label values. -/
abbrev GaugeKey := String × List String

/-- A Counter time series key, same shape as a Gauge key. -/
abbrev CounterKey := String × List String

/-- The current value of every Gauge time series; none means the label set
was never created. -/
abbrev GaugeMap := GaugeKey → Option Rat

/-- The in-memory metric registry.  Gauges hold last-set values; counters
hold accumulated values (api_requests_total, tickets_processed_total,
api_cost_total_usd are declared at exporter.py lines 43-47, 69-73, 136-140);
histObs counts observations of the only histogram the collectors touch,
metrics_collection_duration, keyed by its metric_type label. -/
structure RegistryState where
  gauges : GaugeMap
  counters : CounterKey → Rat
  histObs : String → Nat

/-- Set one Gauge time series to a value: gauge.labels(...).set(v). -/
def setGauge (g : GaugeMap) (k : GaugeKey) (v : Rat) : GaugeMap :=
  fun k2 => if k2 = k then some v else g k2

/-- Key of the unlabeled db_connection_status health gauge
(exporter.py lines 143-146). -/
def dbStatusKey : GaugeKey := ("db_connection_status", [])

/-- db_connection_status.set(v). -/
def setStatus (s : RegistryState) (v : Rat) : RegistryState :=
  { s with gauges := setGauge s.gauges dbStatusKey v }

/-- One metrics_collection_duration.labels(metric_type=tag).observe(...)
call; the observed duration is wall-clock time outside the embedding, so
only the observation count is tracked. -/
def bumpHist (tag : String) (s : RegistryState) : RegistryState :=
  { s with histObs := fun t => if t = tag then s.histObs t + 1 else s.histObs t }

/-- get_db_connection (exporter.py lines 163-172): on success set the health
gauge to 1 and return the connection; on any exception set it to 0 and
return None.  Whether psycopg2.connect succeeds is the Boolean input. -/
def get_db_connection (connOk : Bool) (s : RegistryState) : Option Unit × RegistryState :=
  if connOk then (some (), setStatus s 1) else (none, setStatus s 0)

/-- Outcome of one database query attempt: the connection fails, the
connection succeeds but execute/fetch raises, or rows come back. -/
inductive DBOutcome where
  | connFail
  | queryErr
  | rows (rs : List Row)

/-- Whether the connection attempt for this outcome succeeds. -/
def connOutcome : DBOutcome → Bool
  | DBOutcome.connFail => false
  | DBOutcome.queryErr => true
  | DBOutcome.rows _ => true

/-- The row list query_db hands to the step for this outcome. -/
def rowsOf : DBOutcome → List Row
  | DBOutcome.rows rs => rs
  | _ => []

/-- The value get_db_connection writes to db_connection_status. -/
def statusVal (o : DBOutcome) : Rat := if connOutcome o then 1 else 0

/-- Connection-lifecycle accounting for one query_db call: how many
connections were opened and how many were closed before it returned. -/
structure ConnTrace where
  opened : Nat
  closed : Nat
deriving DecidableEq

/-- What query_db returns: the row list, the updated registry, and the
connection trace. -/
structure QueryResult where
  rows : List Row
  state : RegistryState
  trace : ConnTrace

/-- query_db (exporter.py lines 175-190).  If get_db_connection returns
None, return [] with no connection opened.  Otherwise one connection is
open; on the success path the rows are returned, on an execute/fetch
exception [] is returned, and on both paths the finally block closes the
connection before returning. -/
def query_db (o : DBOutcome) (s : RegistryState) : QueryResult :=
  match get_db_connection (connOutcome o) s with
  | (none, s1) => ⟨[], s1, ⟨0, 0⟩⟩
  | (some _, s1) =>
    match o with
    | DBOutcome.rows rs => ⟨rs, s1, ⟨1, 1⟩⟩
    | _ => ⟨[], s1, ⟨1, 1⟩⟩

/-- The per-row body of a collection step's for-loop, folded over the rows.
f returns the Gauge write a row produces, or none when the body raises
(float(None), int(None), float of a non-numeric string).  An exception
aborts the loop: the rows already processed keep their writes, the rest are
skipped, and the Boolean records that an exception escaped the loop. -/
def processRows (f : Row → Option (GaugeKey × Rat)) : List Row → GaugeMap → GaugeMap × Bool
  | [], g => (g, false)
  | r :: rs, g =>
    match f r with
    | some kv => processRows f rs (setGauge g kv.1 kv.2)
    | none => (g, true)

/-- One query plus its row loop: run query_db, fold the loop body over the
returned rows, and report whether the loop raised.  This is the body each
collection step wraps in try/except/finally. -/
def queryLoop (f : Row → Option (GaugeKey × Rat)) (o : DBOutcome)
    (s : RegistryState) : RegistryState × Bool :=
  let q := query_db o s
  let p := processRows f q.rows q.state.gauges
  ({ q.state with gauges := p.1 }, p.2)

/-- The shared shape of the single-query collection steps (exporter.py
lines 197-240, 294-333, 336-368, 371-408, 411-448, 451-489): query_db, loop
over the rows inside try/except, and in finally observe the step duration.
A loop exception is swallowed by the step-level except. -/
def collectStep (tag : String) (f : Row → Option (GaugeKey × Rat))
    (o : DBOutcome) (s : RegistryState) : RegistryState :=
  bumpHist tag (queryLoop f o s).1

/-- Row mapping of collect_api_rate_limits (exporter.py lines 223-232):
provider and limit_type via row.get with defaults, value via float, write to
api_rate_limit_remaining{provider, limit_type}. -/
def apiRateLimitRow (r : Row) : Option (GaugeKey × Rat) :=
  let provider := pyGet r "provider" (DBVal.vstr "unknown")
  let limit_type := pyGet r "limit_type" (DBVal.vstr "requests")
  match pyFloat (pyGet r "metric_value" (DBVal.vnum 0)) with
  | some v => some (("api_rate_limit_remaining", [labelOf provider, labelOf limit_type]), v)
  | none => none

/-- Row mapping of the hourly loop of collect_tickets_processed
(exporter.py lines 263-266): category via row.get, count via int, write to
tickets_processed_hourly{category}. -/
def ticketsHourlyRow (r : Row) : Option (GaugeKey × Rat) :=
  let category := pyGet r "category" (DBVal.vstr "uncategorized")
  match pyInt (pyGet r "count" (DBVal.vnum 0)) with
  | some n => some (("tickets_processed_hourly", [labelOf category]), (n : Rat))
  | none => none

/-- Row mapping of the daily loop of collect_tickets_processed
(exporter.py lines 280-283). -/
def ticketsDailyRow (r : Row) : Option (GaugeKey × Rat) :=
  let category := pyGet r "category" (DBVal.vstr "uncategorized")
  match pyInt (pyGet r "count" (DBVal.vnum 0)) with
  | some n => some (("tickets_processed_daily", [labelOf category]), (n : Rat))
  | none => none

/-- Row mapping of collect_automation_rate (exporter.py lines 317-325). -/
def automationRateRow (r : Row) : Option (GaugeKey × Rat) :=
  let category := pyGet r "category" (DBVal.vstr "unknown")
  let subcategory := pyGet r "subcategory" (DBVal.vstr "all")
  match pyFloat (pyGet r "metric_value" (DBVal.vnum 0)) with
  | some v => some (("automation_rate", [labelOf category, labelOf subcategory]), v)
  | none => none

/-- Row mapping of collect_similarity_scores (exporter.py lines 356-360). -/
def similarityScoreRow (r : Row) : Option (GaugeKey × Rat) :=
  let category := pyGet r "category" (DBVal.vstr "unknown")
  match pyFloat (pyGet r "avg_score" (DBVal.vnum 0)) with
  | some v => some (("similarity_score_avg", [labelOf category]), v)
  | none => none

/-- Row mapping of collect_csat_scores (exporter.py lines 392-400). -/
def csatScoreRow (r : Row) : Option (GaugeKey × Rat) :=
  let category := pyGet r "category" (DBVal.vstr "unknown")
  let automation_level := pyGet r "automation_level" (DBVal.vstr "manual")
  match pyFloat (pyGet r "avg_csat" (DBVal.vnum 0)) with
  | some v => some (("csat_score", [labelOf category, labelOf automation_level]), v)
  | none => none

/-- Row mapping of collect_resolution_time (exporter.py lines 432-440); the
declared metric name of resolution_time_avg is resolution_time_avg_seconds. -/
def resolutionTimeRow (r : Row) : Option (GaugeKey × Rat) :=
  let category := pyGet r "category" (DBVal.vstr "unknown")
  let automation_level := pyGet r "automation_level" (DBVal.vstr "manual")
  match pyFloat (pyGet r "avg_resolution_time" (DBVal.vnum 0)) with
  | some v => some (("resolution_time_avg_seconds", [labelOf category, labelOf automation_level]), v)
  | none => none

/-- Row mapping of collect_api_costs (exporter.py lines 473-481). -/
def apiCostRow (r : Row) : Option (GaugeKey × Rat) :=
  let category := pyGet r "category" (DBVal.vstr "unknown")
  let automation_level := pyGet r "automation_level" (DBVal.vstr "manual")
  match pyFloat (pyGet r "avg_cost" (DBVal.vnum 0)) with
  | some v => some (("api_cost_per_ticket_usd", [labelOf category, labelOf automation_level]), v)
  | none => none

/-- collect_api_rate_limits (exporter.py lines 197-240). -/
def collect_api_rate_limits (o : DBOutcome) (s : RegistryState) : RegistryState :=
  collectStep "api_rate_limits" apiRateLimitRow o s

/-- collect_tickets_processed (exporter.py lines 243-291): both queries run
inside one try block, so an exception raised while looping over the hourly
rows skips the daily query entirely; the finally block still observes the
step duration. -/
def collect_tickets_processed (oH oD : DBOutcome) (s : RegistryState) : RegistryState :=
  let r1 := queryLoop ticketsHourlyRow oH s
  let s2 : RegistryState := if r1.2 then r1.1 else (queryLoop ticketsDailyRow oD r1.1).1
  bumpHist "tickets_processed" s2

/-- collect_automation_rate (exporter.py lines 294-333). -/
def collect_automation_rate (o : DBOutcome) (s : RegistryState) : RegistryState :=
  collectStep "automation_rate" automationRateRow o s

/-- collect_similarity_scores (exporter.py lines 336-368). -/
def collect_similarity_scores (o : DBOutcome) (s : RegistryState) : RegistryState :=
  collectStep "similarity_scores" similarityScoreRow o s

/-- collect_csat_scores (exporter.py lines 371-408). -/
def collect_csat_scores (o : DBOutcome) (s : RegistryState) : RegistryState :=
  collectStep "csat_scores" csatScoreRow o s

/-- collect_resolution_time (exporter.py lines 411-448). -/
def collect_resolution_time (o : DBOutcome) (s : RegistryState) : RegistryState :=
  collectStep "resolution_time" resolutionTimeRow o s

/-- collect_api_costs (exporter.py lines 451-489). -/
def collect_api_costs (o : DBOutcome) (s : RegistryState) : RegistryState :=
  collectStep "api_costs" apiCostRow o s

/-- The database outcomes of the eight queries one collection cycle issues
(the tickets step issues two). -/
structure CycleInput where
  api : DBOutcome
  ticketsHourly : DBOutcome
  ticketsDaily : DBOutcome
  automation : DBOutcome
  similarity : DBOutcome
  csat : DBOutcome
  resolution : DBOutcome
  apiCost : DBOutcome

/-- collect_all_metrics (exporter.py lines 492-504): the seven steps in
their fixed order. -/
def collect_all_metrics (i : CycleInput) (s : RegistryState) : RegistryState :=
  collect_api_costs i.apiCost
    (collect_resolution_time i.resolution
      (collect_csat_scores i.csat
        (collect_similarity_scores i.similarity
          (collect_automation_rate i.automation
            (collect_tickets_processed i.ticketsHourly i.ticketsDaily
              (collect_api_rate_limits i.api s))))))

/-- Registry at process start: no gauge label set created, counters at 0,
no histogram observations. -/
def initState : RegistryState := ⟨fun _ => none, fun _ => 0, fun _ => 0⟩

/-- A cycle in which every connection attempt fails. -/
def connFailCycle : CycleInput :=
  ⟨DBOutcome.connFail, DBOutcome.connFail, DBOutcome.connFail, DBOutcome.connFail,
   DBOutcome.connFail, DBOutcome.connFail, DBOutcome.connFail, DBOutcome.connFail⟩

/-- Apply a list of Gauge writes in order (proof-side normal form of a
step's effect on the gauges). -/
def applyWrites : List (GaugeKey × Rat) → GaugeMap → GaugeMap
  | [], g => g
  | kv :: ws, g => applyWrites ws (setGauge g kv.1 kv.2)

/-- The Gauge writes a row loop performs: one write per row until the first
row on which the loop body raises. -/
def rowWrites (f : Row → Option (GaugeKey × Rat)) : List Row → List (GaugeKey × Rat)
  | [] => []
  | r :: rs =>
    match f r with
    | some kv => kv :: rowWrites f rs
    | none => []

/-- Whether the row loop raises on some row. -/
def rowsErr (f : Row → Option (GaugeKey × Rat)) : List Row → Bool
  | [] => false
  | r :: rs =>
    match f r with
    | some _ => rowsErr f rs
    | none => true

/-- All Gauge writes of one single-query step: the health-gauge write of its
connection attempt, then the row writes. -/
def stepWrites (f : Row → Option (GaugeKey × Rat)) (o : DBOutcome) : List (GaugeKey × Rat) :=
  (dbStatusKey, statusVal o) :: rowWrites f (rowsOf o)

/-- All Gauge writes of the tickets step: the hourly query's writes, then,
unless the hourly loop raised, the daily query's writes. -/
def ticketsWrites (oH oD : DBOutcome) : List (GaugeKey × Rat) :=
  stepWrites ticketsHourlyRow oH ++
    (if rowsErr ticketsHourlyRow (rowsOf oH) then [] else stepWrites ticketsDailyRow oD)

/-- All Gauge writes of one full cycle, in execution order. -/
def cycleWrites (i : CycleInput) : List (GaugeKey × Rat) :=
  stepWrites apiRateLimitRow i.api ++
  ticketsWrites i.ticketsHourly i.ticketsDaily ++
  stepWrites automationRateRow i.automation ++
  stepWrites similarityScoreRow i.similarity ++
  stepWrites csatScoreRow i.csat ++
  stepWrites resolutionTimeRow i.resolution ++
  stepWrites apiCostRow i.apiCost

/-- Observing a duration does not touch the gauges. -/
theorem bumpHist_gauges (tag : String) (s : RegistryState) :
    (bumpHist tag s).gauges = s.gauges := rfl

/-- Observing a duration does not touch the counters. -/
theorem bumpHist_counters (tag : String) (s : RegistryState) :
    (bumpHist tag s).counters = s.counters := rfl

/-- The observation count after one observe call. -/
theorem bumpHist_histObs (tag : String) (s : RegistryState) (t : String) :
    (bumpHist tag s).histObs t = if t = tag then s.histObs t + 1 else s.histObs t := rfl

/-- Setting a gauge leaves every other time series unchanged. -/
theorem setGauge_ne (g : GaugeMap) (k : GaugeKey) (v : Rat) (k2 : GaugeKey)
    (h : k2 ≠ k) : setGauge g k v k2 = g k2 := by
  simp [setGauge, h]

/-- Applying a concatenation of writes applies each part in order. -/
theorem applyWrites_append (a b : List (GaugeKey × Rat)) (g : GaugeMap) :
    applyWrites (a ++ b) g = applyWrites b (applyWrites a g) := by
  induction a generalizing g with
  | nil => rfl
  | cons kv ws ih => simp [applyWrites, List.cons_append, ih]

/-- Characterisation of query_db: the rows, the health-gauge write, and the
connection trace are each determined by the outcome. -/
theorem query_db_spec (o : DBOutcome) (s : RegistryState) :
    query_db o s =
      ⟨rowsOf o, setStatus s (statusVal o),
        if connOutcome o then ⟨1, 1⟩ else ⟨0, 0⟩⟩ := by
  cases o <;> rfl

/-- The gauges after a row loop are the initial gauges with the loop's
writes applied in order. -/
theorem processRows_fst (f : Row → Option (GaugeKey × Rat)) :
    ∀ (rows : List Row) (g : GaugeMap),
      (processRows f rows g).1 = applyWrites (rowWrites f rows) g := by
  intro rows
  induction rows with
  | nil => intro g; rfl
  | cons r rs ih =>
    intro g
    cases hfr : f r <;> simp [processRows, rowWrites, hfr, ih, applyWrites]

/-- Whether a row loop raises depends only on the rows. -/
theorem processRows_snd (f : Row → Option (GaugeKey × Rat)) :
    ∀ (rows : List Row) (g : GaugeMap),
      (processRows f rows g).2 = rowsErr f rows := by
  intro rows
  induction rows with
  | nil => intro g; rfl
  | cons r rs ih =>
    intro g
    cases hfr : f r <;> simp [processRows, rowsErr, hfr, ih]

/-- Characterisation of one query-plus-loop: the state keeps its counters
and histogram observations, the gauges receive exactly stepWrites, and the
error flag is rowsErr of the returned rows. -/
theorem queryLoop_spec (f : Row → Option (GaugeKey × Rat)) (o : DBOutcome)
    (s : RegistryState) :
    queryLoop f o s =
      ({ s with gauges := applyWrites (stepWrites f o) s.gauges },
       rowsErr f (rowsOf o)) := by
  unfold queryLoop
  rw [query_db_spec]
  dsimp only
  rw [processRows_fst, processRows_snd]
  rfl

/-- Every single-query step's effect: observe one duration and apply its
Gauge writes. -/
theorem collectStep_spec (tag : String) (f : Row → Option (GaugeKey × Rat))
    (o : DBOutcome) (s : RegistryState) :
    collectStep tag f o s =
      bumpHist tag { s with gauges := applyWrites (stepWrites f o) s.gauges } := by
  unfold collectStep
  rw [queryLoop_spec]

/-- The tickets step's effect: observe one duration and apply the tickets
writes (hourly, then daily unless the hourly loop raised). -/
theorem tickets_spec (oH oD : DBOutcome) (s : RegistryState) :
    collect_tickets_processed oH oD s =
      bumpHist "tickets_processed"
        { s with gauges := applyWrites (ticketsWrites oH oD) s.gauges } := by
  unfold collect_tickets_processed
  rw [queryLoop_spec]
  cases herr : rowsErr ticketsHourlyRow (rowsOf oH) with
  | true => simp [herr, ticketsWrites, applyWrites_append]
  | false => simp [herr, ticketsWrites, applyWrites_append, queryLoop_spec]

/-- A time series no write targets is unchanged by applying the writes. -/
theorem applyWrites_not_mem :
    ∀ (ws : List (GaugeKey × Rat)) (g : GaugeMap) (k : GaugeKey),
      (∀ kv ∈ ws, kv.1 ≠ k) → applyWrites ws g k = g k := by
  intro ws
  induction ws with
  | nil => intro g k _; rfl
  | cons kv ws ih =>
    intro g k h
    have h1 : kv.1 ≠ k := h kv (List.mem_cons_self kv ws)
    have h2 : ∀ kv2 ∈ ws, kv2.1 ≠ k := fun kv2 hm => h kv2 (List.mem_cons_of_mem kv hm)
    show applyWrites ws (setGauge g kv.1 kv.2) k = g k
    rw [ih _ _ h2, setGauge_ne _ _ _ _ (Ne.symm h1)]

/-- The value of a time series some write targets does not depend on the
initial gauges. -/
theorem applyWrites_mem :
    ∀ (ws : List (GaugeKey × Rat)) (k : GaugeKey), k ∈ ws.map Prod.fst →
      ∀ g1 g2, applyWrites ws g1 k = applyWrites ws g2 k := by
  intro ws
  induction ws with
  | nil => intro k h; simp at h
  | cons kv ws ih =>
    intro k h g1 g2
    by_cases hk : k ∈ ws.map Prod.fst
    · exact ih k hk _ _
    · have hkv : kv.1 = k := by
        rcases List.mem_cons.mp h with h1 | h1
        · exact h1.symm
        · exact absurd h1 hk
      have hni : ∀ kv2 ∈ ws, kv2.1 ≠ k := by
        intro kv2 hm he
        exact hk (by rw [← he]; exact List.mem_map_of_mem Prod.fst hm)
      show applyWrites ws (setGauge g1 kv.1 kv.2) k = applyWrites ws (setGauge g2 kv.1 kv.2) k
      rw [applyWrites_not_mem ws _ k hni, applyWrites_not_mem ws _ k hni]
      simp [setGauge, hkv]

/-- Applying the same write list twice gives the same gauges as applying it
once: the second pass rewrites each written series with the same value. -/
theorem applyWrites_idem (ws : List (GaugeKey × Rat)) (g : GaugeMap) (k : GaugeKey) :
    applyWrites ws (applyWrites ws g) k = applyWrites ws g k := by
  by_cases h : k ∈ ws.map Prod.fst
  · exact applyWrites_mem ws k h _ _
  · have hni : ∀ kv ∈ ws, kv.1 ≠ k := by
      intro kv hm he
      exact h (by rw [← he]; exact List.mem_map_of_mem Prod.fst hm)
    rw [applyWrites_not_mem ws _ k hni]

/-- The value of one time series after applying writes depends on the
initial gauges only through that same time series. -/
theorem applyWrites_congr_at :
    ∀ (ws : List (GaugeKey × Rat)) (g1 g2 : GaugeMap) (k : GaugeKey),
      g1 k = g2 k → applyWrites ws g1 k = applyWrites ws g2 k := by
  intro ws
  induction ws with
  | nil => intro g1 g2 k h; exact h
  | cons kv ws ih =>
    intro g1 g2 k h
    show applyWrites ws (setGauge g1 kv.1 kv.2) k = applyWrites ws (setGauge g2 kv.1 kv.2) k
    apply ih
    by_cases hk : k = kv.1
    · simp [setGauge, hk]
    · simp [setGauge, hk, h]

/-- The gauges after a full cycle are the initial gauges with the cycle's
writes applied in execution order. -/
theorem cycle_gauges (i : CycleInput) (s : RegistryState) :
    (collect_all_metrics i s).gauges = applyWrites (cycleWrites i) s.gauges := by
  simp only [collect_all_metrics, collect_api_rate_limits, collect_automation_rate,
    collect_similarity_scores, collect_csat_scores, collect_resolution_time,
    collect_api_costs, collectStep_spec, tickets_spec, bumpHist_gauges,
    cycleWrites, applyWrites_append]

/-- No collection step and no cycle touches the counters. -/
theorem cycle_counters (i : CycleInput) (s : RegistryState) :
    (collect_all_metrics i s).counters = s.counters := by
  simp only [collect_all_metrics, collect_api_rate_limits, collect_automation_rate,
    collect_similarity_scores, collect_csat_scores, collect_resolution_time,
    collect_api_costs, collectStep_spec, tickets_spec, bumpHist_counters]

/-- A single-query step bumps exactly its own duration series. -/
theorem collectStep_histObs (tag : String) (f : Row → Option (GaugeKey × Rat))
    (o : DBOutcome) (s : RegistryState) (t : String) :
    (collectStep tag f o s).histObs t =
      if t = tag then s.histObs t + 1 else s.histObs t := by
  rw [collectStep_spec]; rfl

/-- The tickets step bumps exactly its own duration series. -/
theorem tickets_histObs (oH oD : DBOutcome) (s : RegistryState) (t : String) :
    (collect_tickets_processed oH oD s).histObs t =
      if t = "tickets_processed" then s.histObs t + 1 else s.histObs t := by
  rw [tickets_spec]; rfl

/-- A single-query step whose query returns no rows writes only the health
gauge. -/
theorem collectStep_empty (tag : String) (f : Row → Option (GaugeKey × Rat))
    (s : RegistryState) (k : GaugeKey) (hk : k ≠ dbStatusKey) :
    (collectStep tag f (DBOutcome.rows []) s).gauges k = s.gauges k := by
  rw [collectStep_spec, bumpHist_gauges]
  show setGauge s.gauges dbStatusKey 1 k = s.gauges k
  exact setGauge_ne _ _ _ _ hk

/-- The tickets step with two empty results writes only the health gauge. -/
theorem tickets_empty (s : RegistryState) (k : GaugeKey) (hk : k ≠ dbStatusKey) :
    (collect_tickets_processed (DBOutcome.rows []) (DBOutcome.rows []) s).gauges k
      = s.gauges k := by
  rw [tickets_spec, bumpHist_gauges]
  show setGauge (setGauge s.gauges dbStatusKey 1) dbStatusKey 1 k = s.gauges k
  rw [setGauge_ne _ _ _ _ hk, setGauge_ne _ _ _ _ hk]

/-- C1: the spec says a null or missing label field maps to the documented
fallback string, and its tickets-processed-hourly scenario expects the gauge
label uncategorized for a null category.  On RealDictCursor rows the column
key is present with value None, so row.get never falls back; prometheus
stringifies the None into the label None.  The scenario rows [plumbing 12,
null 3] therefore yield labels plumbing and None, and no uncategorized
series, contradicting the claim; the fallback strings in the code document
the intent, so this is a code bug. -/
theorem tickets_null_category_scenario :
    (collect_tickets_processed
        (DBOutcome.rows [[("category", DBVal.vstr "plumbing"), ("count", DBVal.vnum 12)],
                         [("category", DBVal.vnull), ("count", DBVal.vnum 3)]])
        (DBOutcome.rows []) initState).gauges ("tickets_processed_hourly", ["plumbing"])
      = some 12 ∧
    (collect_tickets_processed
        (DBOutcome.rows [[("category", DBVal.vstr "plumbing"), ("count", DBVal.vnum 12)],
                         [("category", DBVal.vnull), ("count", DBVal.vnum 3)]])
        (DBOutcome.rows []) initState).gauges ("tickets_processed_hourly", ["None"])
      = some 3 ∧
    (collect_tickets_processed
        (DBOutcome.rows [[("category", DBVal.vstr "plumbing"), ("count", DBVal.vnum 12)],
                         [("category", DBVal.vnull), ("count", DBVal.vnum 3)]])
        (DBOutcome.rows []) initState).gauges ("tickets_processed_hourly", ["uncategorized"])
      = none := by
  refine ⟨by decide, by decide, by decide⟩

/-- C2: the spec says a null/unparseable metric_value maps to 0 and the
remaining rows are still processed.  In the code float(row.get(key, 0))
receives None when the column is NULL, float(None) raises TypeError, the
step-level except aborts the whole loop: nothing is written for the null row
and the rows after it are skipped (swapping the order shows the row before
the bad one is written), contradicting the claim; the 0 default in the code
documents the intent, so this is a code bug. -/
theorem null_metric_value_aborts_step :
    (collect_api_rate_limits
        (DBOutcome.rows
          [[("provider", DBVal.vstr "openai"), ("model", DBVal.vnull),
            ("limit_type", DBVal.vstr "requests"), ("metric_value", DBVal.vnull)],
           [("provider", DBVal.vstr "anthropic"), ("model", DBVal.vnull),
            ("limit_type", DBVal.vstr "requests"), ("metric_value", DBVal.vnum 100)]])
        initState).gauges ("api_rate_limit_remaining", ["openai", "requests"]) = none ∧
    (collect_api_rate_limits
        (DBOutcome.rows
          [[("provider", DBVal.vstr "openai"), ("model", DBVal.vnull),
            ("limit_type", DBVal.vstr "requests"), ("metric_value", DBVal.vnull)],
           [("provider", DBVal.vstr "anthropic"), ("model", DBVal.vnull),
            ("limit_type", DBVal.vstr "requests"), ("metric_value", DBVal.vnum 100)]])
        initState).gauges ("api_rate_limit_remaining", ["anthropic", "requests"]) = none ∧
    (collect_api_rate_limits
        (DBOutcome.rows
          [[("provider", DBVal.vstr "anthropic"), ("model", DBVal.vnull),
            ("limit_type", DBVal.vstr "requests"), ("metric_value", DBVal.vnum 100)],
           [("provider", DBVal.vstr "openai"), ("model", DBVal.vnull),
            ("limit_type", DBVal.vstr "requests"), ("metric_value", DBVal.vnull)]])
        initState).gauges ("api_rate_limit_remaining", ["anthropic", "requests"]) = some 100 := by
  refine ⟨by decide, by decide, by decide⟩

/-- C3 counterexample: a step whose connection attempt fails modifies an
instrument value set in a prior cycle: it overwrites the health gauge
db_connection_status from 1 (set by an earlier successful connection) to 0,
so the claim that a failing step modifies no prior-cycle instrument value is
false as stated. -/
theorem failing_step_modifies_prior_health_gauge :
    ({ initState with gauges := setGauge initState.gauges dbStatusKey 1 }
        : RegistryState).gauges dbStatusKey = some 1 ∧
    (collect_api_rate_limits DBOutcome.connFail
        { initState with gauges := setGauge initState.gauges dbStatusKey 1 }).gauges
        dbStatusKey = some 0 ∧
    some (0 : Rat) ≠ some (1 : Rat) := by
  refine ⟨by decide, by decide, by decide⟩

/-- C3 (amended): any error in a step is caught (connection and query errors
inside query_db, row errors at the step boundary) and every step is a total
state transformer; a failing step changes no gauge other than
db_connection_status and the series written by rows processed before the
error; and subsequent steps still execute — in a cycle where every other
step's connection fails, the similarity step's row writes are still applied
in full. -/
theorem step_error_isolation :
    (∀ (tag : String) (f : Row → Option (GaugeKey × Rat)) (o : DBOutcome)
        (s : RegistryState) (k : GaugeKey),
        k ≠ dbStatusKey → (∀ kv ∈ rowWrites f (rowsOf o), kv.1 ≠ k) →
        (collectStep tag f o s).gauges k = s.gauges k) ∧
    (∀ (rs : List Row) (s : RegistryState) (k : GaugeKey), k ≠ dbStatusKey →
        (collect_all_metrics
            ⟨DBOutcome.connFail, DBOutcome.connFail, DBOutcome.connFail,
             DBOutcome.connFail, DBOutcome.rows rs, DBOutcome.connFail,
             DBOutcome.connFail, DBOutcome.connFail⟩ s).gauges k
          = applyWrites (rowWrites similarityScoreRow rs) s.gauges k) := by
  constructor
  · intro tag f o s k hk hrw
    rw [collectStep_spec, bumpHist_gauges]
    show applyWrites (stepWrites f o) s.gauges k = s.gauges k
    apply applyWrites_not_mem
    intro kv hm
    rcases List.mem_cons.mp hm with h | h
    · rw [h]; exact Ne.symm hk
    · exact hrw kv h
  · intro rs s k hk
    rw [cycle_gauges]
    have hcw : cycleWrites
        ⟨DBOutcome.connFail, DBOutcome.connFail, DBOutcome.connFail,
         DBOutcome.connFail, DBOutcome.rows rs, DBOutcome.connFail,
         DBOutcome.connFail, DBOutcome.connFail⟩ =
        (dbStatusKey, 0) :: (dbStatusKey, 0) :: (dbStatusKey, 0) :: (dbStatusKey, 0) ::
          (dbStatusKey, 1) ::
            (rowWrites similarityScoreRow rs ++
              [(dbStatusKey, 0), (dbStatusKey, 0), (dbStatusKey, 0)]) := by
      simp [cycleWrites, stepWrites, ticketsWrites, rowsOf, statusVal, connOutcome,
        rowsErr, rowWrites]
    rw [hcw]
    show applyWrites
        (rowWrites similarityScoreRow rs ++ [(dbStatusKey, 0), (dbStatusKey, 0), (dbStatusKey, 0)])
        (setGauge (setGauge (setGauge (setGauge (setGauge s.gauges dbStatusKey 0)
          dbStatusKey 0) dbStatusKey 0) dbStatusKey 0) dbStatusKey 1) k
      = applyWrites (rowWrites similarityScoreRow rs) s.gauges k
    rw [applyWrites_append]
    rw [applyWrites_not_mem _ _ k (by intro kv hm; simp at hm; rw [hm]; exact Ne.symm hk)]
    apply applyWrites_congr_at
    rw [setGauge_ne _ _ _ _ hk, setGauge_ne _ _ _ _ hk, setGauge_ne _ _ _ _ hk,
      setGauge_ne _ _ _ _ hk, setGauge_ne _ _ _ _ hk]

/-- C3 witness: a step whose connection fails leaves a gauge other than the
health gauge unchanged. -/
theorem step_error_isolation_witness :
    (collectStep "similarity_scores" similarityScoreRow DBOutcome.connFail initState).gauges
        ("automation_rate", ["a", "b"]) = initState.gauges ("automation_rate", ["a", "b"]) :=
  step_error_isolation.1 "similarity_scores" similarityScoreRow DBOutcome.connFail
    initState ("automation_rate", ["a", "b"]) (by decide)
    (by intro kv hm; simp [rowWrites, rowsOf] at hm)

/-- C4 counterexample: the health gauge db_connection_status is a Gauge, and
a step whose query succeeds with zero rows still sets it to 1, overwriting a
0 set in a prior cycle — so the claim that a step with an empty result
changes no previously-set Gauge value is false as stated. -/
theorem empty_result_updates_health_gauge :
    ({ initState with gauges := setGauge initState.gauges dbStatusKey 0 }
        : RegistryState).gauges dbStatusKey = some 0 ∧
    (collect_similarity_scores (DBOutcome.rows [])
        { initState with gauges := setGauge initState.gauges dbStatusKey 0 }).gauges
        dbStatusKey = some 1 ∧
    some (1 : Rat) ≠ some (0 : Rat) := by
  refine ⟨by decide, by decide, by decide⟩

/-- C4 (amended): a collection step whose query returns no rows leaves every
Gauge series other than db_connection_status unchanged — in particular
similarity_score_avg keeps its prior value or stays absent — while
db_connection_status is set to 1 by the successful connection. -/
theorem empty_result_preserves_other_gauges (s : RegistryState) (k : GaugeKey)
    (hk : k ≠ dbStatusKey) :
    (collect_api_rate_limits (DBOutcome.rows []) s).gauges k = s.gauges k ∧
    (collect_tickets_processed (DBOutcome.rows []) (DBOutcome.rows []) s).gauges k
      = s.gauges k ∧
    (collect_automation_rate (DBOutcome.rows []) s).gauges k = s.gauges k ∧
    (collect_similarity_scores (DBOutcome.rows []) s).gauges k = s.gauges k ∧
    (collect_csat_scores (DBOutcome.rows []) s).gauges k = s.gauges k ∧
    (collect_resolution_time (DBOutcome.rows []) s).gauges k = s.gauges k ∧
    (collect_api_costs (DBOutcome.rows []) s).gauges k = s.gauges k ∧
    (collect_similarity_scores (DBOutcome.rows []) s).gauges dbStatusKey = some 1 := by
  refine ⟨collectStep_empty _ _ s k hk, tickets_empty s k hk, collectStep_empty _ _ s k hk,
    collectStep_empty _ _ s k hk, collectStep_empty _ _ s k hk, collectStep_empty _ _ s k hk,
    collectStep_empty _ _ s k hk, ?_⟩
  show (collectStep "similarity_scores" similarityScoreRow (DBOutcome.rows []) s).gauges
      dbStatusKey = some 1
  rw [collectStep_spec, bumpHist_gauges]
  show setGauge s.gauges dbStatusKey 1 dbStatusKey = some 1
  simp [setGauge]

/-- C4 witness: a never-set tickets series stays absent after a step with an
empty query result. -/
theorem empty_result_preserves_other_gauges_witness :
    (collect_api_rate_limits (DBOutcome.rows []) initState).gauges
        ("tickets_processed_hourly", ["plumbing"])
      = initState.gauges ("tickets_processed_hourly", ["plumbing"]) :=
  (empty_result_preserves_other_gauges initState
    ("tickets_processed_hourly", ["plumbing"]) (by decide)).1

/-- C5 counterexample: when the connection fails the step still records an
observation into the metrics_collection_duration histogram, so the claim
that all instruments other than db_connection_status keep their last-known
values is false as stated. -/
theorem conn_failure_records_duration_observation :
    initState.histObs "api_rate_limits" = 0 ∧
    (collect_api_rate_limits DBOutcome.connFail initState).histObs "api_rate_limits" = 1 ∧
    (1 : Nat) ≠ 0 := by
  refine ⟨by decide, by decide, by decide⟩

/-- C5 (amended): when every connection attempt of a cycle fails,
db_connection_status ends at 0, every other Gauge series keeps its
last-known value, no Counter changes, and each step's duration Histogram
records one observation (shown for the api_rate_limits series). -/
theorem conn_failure_sets_health_down (s : RegistryState) (k : GaugeKey)
    (hk : k ≠ dbStatusKey) :
    (collect_all_metrics connFailCycle s).gauges dbStatusKey = some 0 ∧
    (collect_all_metrics connFailCycle s).gauges k = s.gauges k ∧
    (∀ key : CounterKey, (collect_all_metrics connFailCycle s).counters key = s.counters key) ∧
    (collect_all_metrics connFailCycle s).histObs "api_rate_limits"
      = s.histObs "api_rate_limits" + 1 := by
  have hcw : cycleWrites connFailCycle =
      [(dbStatusKey, 0), (dbStatusKey, 0), (dbStatusKey, 0), (dbStatusKey, 0),
       (dbStatusKey, 0), (dbStatusKey, 0), (dbStatusKey, 0), (dbStatusKey, 0)] := rfl
  refine ⟨?_, ?_, ?_, ?_⟩
  · rw [cycle_gauges, hcw]
    simp [applyWrites, setGauge]
  · rw [cycle_gauges, hcw]
    apply applyWrites_not_mem
    intro kv hm
    simp at hm
    rw [hm]
    exact Ne.symm hk
  · intro key
    rw [cycle_counters]
  · simp [collect_all_metrics, collect_api_rate_limits, collect_automation_rate,
      collect_similarity_scores, collect_csat_scores, collect_resolution_time,
      collect_api_costs, collectStep_histObs, tickets_histObs, connFailCycle]

/-- C5 witness: after a cycle of failed connections, a never-set csat_score
series is still absent. -/
theorem conn_failure_sets_health_down_witness :
    (collect_all_metrics connFailCycle initState).gauges ("csat_score", ["a", "b"])
      = initState.gauges ("csat_score", ["a", "b"]) :=
  (conn_failure_sets_health_down initState ("csat_score", ["a", "b"]) (by decide)).2.1

/-- C6: running a full collection cycle twice on identical query results
yields the same Gauge registry state as running it once — every write a
cycle performs is a set whose key and value are determined by the query
results alone, so the second pass rewrites each series with the same value. -/
theorem cycle_idempotent_on_gauges (i : CycleInput) (s : RegistryState) (k : GaugeKey) :
    (collect_all_metrics i (collect_all_metrics i s)).gauges k
      = (collect_all_metrics i s).gauges k := by
  rw [cycle_gauges i (collect_all_metrics i s), cycle_gauges i s]
  exact applyWrites_idem _ _ _

/-- C7: no collection step and no full cycle increments any Counter: every
step leaves the entire counter map unchanged, in particular the declared
api_requests_total, tickets_processed_total and api_cost_total_usd series. -/
theorem counters_never_incremented (i : CycleInput) (oH oD o : DBOutcome)
    (s : RegistryState) (key : CounterKey) :
    (collect_api_rate_limits o s).counters key = s.counters key ∧
    (collect_tickets_processed oH oD s).counters key = s.counters key ∧
    (collect_automation_rate o s).counters key = s.counters key ∧
    (collect_similarity_scores o s).counters key = s.counters key ∧
    (collect_csat_scores o s).counters key = s.counters key ∧
    (collect_resolution_time o s).counters key = s.counters key ∧
    (collect_api_costs o s).counters key = s.counters key ∧
    (collect_all_metrics i s).counters ("api_requests_total", key.2)
      = s.counters ("api_requests_total", key.2) ∧
    (collect_all_metrics i s).counters ("tickets_processed_total", key.2)
      = s.counters ("tickets_processed_total", key.2) ∧
    (collect_all_metrics i s).counters ("api_cost_total_usd", key.2)
      = s.counters ("api_cost_total_usd", key.2) ∧
    (collect_all_metrics i s).counters key = s.counters key := by
  refine ⟨?_, ?_, ?_, ?_, ?_, ?_, ?_, ?_, ?_, ?_, ?_⟩ <;>
    simp [collect_api_rate_limits, collect_automation_rate, collect_similarity_scores,
      collect_csat_scores, collect_resolution_time, collect_api_costs,
      collectStep_spec, tickets_spec, bumpHist_counters, cycle_counters]

/-- C8: each query_db call opens its own fresh connection when the
connection attempt succeeds and closes it before returning, on the success
path and on the execute/fetch error path alike (the finally block); when
the connection attempt fails, no connection is opened or closed, and in
every case the number closed equals the number opened. -/
theorem query_db_connection_lifecycle (o : DBOutcome) (s : RegistryState) :
    (query_db o s).trace
      = (if connOutcome o then ⟨1, 1⟩ else ⟨0, 0⟩ : ConnTrace) ∧
    (query_db o s).trace.closed = (query_db o s).trace.opened := by
  cases o <;> exact ⟨rfl, rfl⟩

/-- C9: query_db is total at its interface: every outcome produces a list —
the fetched rows on success, the empty list when the connection cannot be
opened and when execute/fetch fails — and no exception reaches the caller
(every error path is an explicit branch of the definition). -/
theorem query_db_total (o : DBOutcome) (s : RegistryState) :
    (query_db o s).rows = rowsOf o ∧
    (o = DBOutcome.connFail → (query_db o s).rows = []) ∧
    (o = DBOutcome.queryErr → (query_db o s).rows = []) ∧
    (∀ rs, o = DBOutcome.rows rs → (query_db o s).rows = rs) := by
  refine ⟨?_, ?_, ?_, ?_⟩
  · cases o <;> rfl
  · intro h; subst h; rfl
  · intro h; subst h; rfl
  · intro rs h; subst h; rfl

/-- C9 witness: a failed connection yields the empty row list. -/
theorem query_db_total_witness :
    (query_db DBOutcome.connFail initState).rows = [] :=
  (query_db_total DBOutcome.connFail initState).2.1 rfl

/-- C10: every get_db_connection call sets db_connection_status, and
afterwards the gauge is 1 exactly when a connection was returned and 0
exactly when None was returned, regardless of the gauge's previous value —
so a later successful attempt overwrites an earlier down state. -/
theorem get_db_connection_status_invariant (connOk : Bool) (s : RegistryState) :
    ((get_db_connection connOk s).2.gauges dbStatusKey = some 1 ↔
      ((get_db_connection connOk s).1).isSome = true) ∧
    ((get_db_connection connOk s).2.gauges dbStatusKey = some 0 ↔
      (get_db_connection connOk s).1 = none) := by
  cases connOk <;> simp [get_db_connection, setStatus, setGauge]

end Exporter
